import Mathlib

/-
Shallow embedding of the WebGIS water-status dashboard (src/src/App.jsx).

The program is a single React file: a data-loading hook (useWaterData), a
map component (MapComponent / onEachFeature), a chart component
(ChartComponent) and a root component (App) that wires a district-name
lookup between the map and the loaded time-series dictionary.

Modelling conventions:
  * JavaScript strings are Lean String (a list of characters); the relevant
    operations (trim, toLowerCase) are modelled character-by-character.
  * JavaScript objects used as dictionaries (the tws payload, a WaterSeries)
    are association lists in their enumeration order; property lookup is
    first-match lookup on the own keys (prototype-chain names are outside
    the model).
  * undefined / null / missing values are Option.none; JavaScript
    truthiness of a string s is the test s different from the empty string.
  * Series values are an arbitrary type a (the code never inspects them),
    and the parsed geojson body is an arbitrary type g (passed through
    verbatim).
  * fetch outcomes: a network failure carries the rejection message, a
    response carries its ok flag (true exactly for 2xx) and its body parse
    result.
-/

/-- Code points removed by JavaScript String.prototype.trim: the WhiteSpace
and LineTerminator sets of the ECMAScript specification. -/
def isJsSpaceCode (n : Nat) : Bool :=
  n = 0x9 || n = 0xA || n = 0xB || n = 0xC || n = 0xD || n = 0x20 ||
  n = 0xA0 || n = 0x1680 || (0x2000 ≤ n && n ≤ 0x200A) ||
  n = 0x2028 || n = 0x2029 || n = 0x202F || n = 0x205F || n = 0x3000 || n = 0xFEFF

/-- Whitespace test on characters, as used by the trim in App.jsx line 178. -/
def isJsSpace (c : Char) : Bool := isJsSpaceCode c.toNat

/-- Single-character lowercasing as JavaScript toLowerCase acts on the
ASCII range (district names in this dataset are ASCII; the A-Z block is the
only one the program's inputs exercise). -/
def lowerChar (c : Char) : Char :=
  if 65 ≤ c.toNat ∧ c.toNat ≤ 90 then Char.ofNat (c.toNat + 32) else c

/-- JavaScript String.prototype.trim on the character list: drop whitespace
from the front, then from the back. -/
def jsTrim (l : List Char) : List Char :=
  ((l.dropWhile isJsSpace).reverse.dropWhile isJsSpace).reverse

/-- JavaScript String.prototype.toLowerCase on the character list. -/
def jsToLower (l : List Char) : List Char := l.map lowerChar

/-- The normalized-key function of the spec: App.jsx line 178,
selectedDistrict.trim().toLowerCase(). -/
def normalizeKey (s : String) : String := ⟨jsToLower (jsTrim s.data)⟩

/-- A per-district time series: year label to value, in the object's
enumeration order (App.jsx reads it with Object.entries). -/
abbrev WaterSeries (a : Type) := List (String × a)

/-- The tws payload: district key to WaterSeries, in enumeration order. -/
abbrev TwsDataset (a : Type) := List (String × WaterSeries a)

/-- Own-property lookup on the tws dictionary: tws[districtKey],
App.jsx line 180. Absent key gives none (undefined). -/
def lookupTws {a : Type} (tws : TwsDataset a) (k : String) : Option (WaterSeries a) :=
  match tws with
  | [] => none
  | (k', v) :: rest => if k' = k then some v else lookupTws rest k

/-- Outcome of one fetch call: the promise rejects with a message
(network failure), or resolves to a response with an ok flag (true exactly
for status 2xx) and a body whose JSON parse yields a value or an error. -/
inductive FetchOutcome (b : Type) where
  | netError (msg : String)
  | response (ok : Bool) (body : Except String b)

/-- The data object of useWaterData (App.jsx line 20):
initial value has tws an empty object and geojson null. -/
structure WaterData (a g : Type) where
  tws : TwsDataset a
  geojson : Option g
deriving DecidableEq

/-- The observable state of useWaterData: data, loading, error. -/
structure LoaderState (a g : Type) where
  data : WaterData a g
  loading : Bool
  error : Option String
deriving DecidableEq

/-- Initial data object: useState at App.jsx line 20. -/
def initialData {a g : Type} : WaterData a g := ⟨[], none⟩

/-- The fetchData effect of useWaterData (App.jsx lines 24-63) run to
completion on a pair of fetch outcomes. Source order is kept: Promise.all
first (a rejection is caught with its message; when both fetches reject,
Promise.all surfaces the one that settles first, which the model fixes to
be the tws one - no claim depends on the choice), then the ok-flag check
(throwing the literal message), then the geojson body parse, then the tws
body parse; setData runs only when everything succeeded, and the finally
block clears loading on every path. -/
def runLoader {a g : Type} (twsRes : FetchOutcome (TwsDataset a)) (geojsonRes : FetchOutcome g) :
    LoaderState a g :=
  match twsRes, geojsonRes with
  | .netError m, _ => ⟨initialData, false, some m⟩
  | .response _ _, .netError m => ⟨initialData, false, some m⟩
  | .response tOk tBody, .response gOk gBody =>
    if !tOk || !gOk then ⟨initialData, false, some "Network response was not ok"⟩
    else
      match gBody with
      | .error m => ⟨initialData, false, some m⟩
      | .ok geojsonData =>
        match tBody with
        | .error m => ⟨initialData, false, some m⟩
        | .ok twsLookupObject => ⟨⟨twsLookupObject, some geojsonData⟩, false, none⟩

/-- A geojson feature as MapComponent consumes it: only the DISTRICT
property matters; none models an absent property (geometry is not read by
the code under verification). -/
structure Feature where
  DISTRICT : Option String
deriving DecidableEq

/-- What onEachFeature (App.jsx lines 70-83) attaches to one feature layer:
the tooltip text, the non-permanent tooltip flag, and the argument the
click handler passes to onDistrictClick. -/
structure FeatureBinding where
  tooltipText : String
  tooltipPermanent : Bool
  clickArg : String
deriving DecidableEq

/-- The onEachFeature callback: districtName is
feature.properties.DISTRICT with a fallback to the literal string Unknown
when the property is absent or falsy (the empty string); this one name is
both the tooltip text and the click-callback argument. -/
def onEachFeature (feature : Feature) : FeatureBinding :=
  let districtName := match feature.DISTRICT with
    | some s => if s = "" then "Unknown" else s
    | none => "Unknown"
  ⟨districtName, false, districtName⟩

/-- One recharts data point built by ChartComponent: twsBCM stands for the
dataKey string TWS (BCM). -/
structure ChartPoint (a : Type) where
  year : String
  twsBCM : a
deriving DecidableEq

/-- What ChartComponent returns: either the centered placeholder paragraph
with its message, or a LineChart over the transformed points. -/
inductive ChartRender (a : Type) where
  | placeholder (message : String)
  | lineChart (data : List (ChartPoint a))
deriving DecidableEq

/-- ChartComponent's transformation (App.jsx lines 127-130):
Object.entries(districtData).map into points, keeping entry order. -/
def chartDataOf {a : Type} (districtData : WaterSeries a) : List (ChartPoint a) :=
  districtData.map (fun e => ⟨e.1, e.2⟩)

/-- The placeholder message (App.jsx lines 117-119): a truthy districtName
selects the no-data sentence naming the district, otherwise the
click-instruction sentence. -/
def noDataMessage (districtName : Option String) : String :=
  match districtName with
  | some s =>
    if s = "" then "Click a district on the map to view its water status data."
    else "No TWS data is available for " ++ s ++ "."
  | none => "Click a district on the map to view its water status data."

/-- ChartComponent (App.jsx lines 114-165): falsy or empty districtData
renders the placeholder; otherwise the line chart over chartDataOf. -/
def ChartComponent {a : Type} (districtData : Option (WaterSeries a))
    (districtName : Option String) : ChartRender a :=
  match districtData with
  | none => .placeholder (noDataMessage districtName)
  | some d =>
    if d.length = 0 then .placeholder (noDataMessage districtName)
    else .lineChart (chartDataOf d)

/-- What MapComponent renders: the base tile layer alone when geojson is
null, or the base layer plus the GeoJSON boundary layer (App.jsx line 96). -/
inductive MapRender (g : Type) where
  | baseOnly
  | withBoundaries (geojson : g)
deriving DecidableEq

/-- MapComponent's conditional layer: geojson truthy renders the layer. -/
def MapComponent {g : Type} (geojson : Option g) : MapRender g :=
  match geojson with
  | some d => .withBoundaries d
  | none => .baseOnly

/-- The root render result: the loading screen, the error screen (only the
message - no map pane and no chart pane), or the dashboard with its map
pane, card title and chart. -/
inductive AppRender (a g : Type) where
  | loadingView
  | errorView (msg : String)
  | dashboard (mapPane : MapRender g) (title : String) (chart : ChartRender a)
deriving DecidableEq

/-- The derived lookup key (App.jsx lines 177-179):
selectedDistrict ? selectedDistrict.trim().toLowerCase() : null. -/
def districtKeyOf (selectedDistrict : Option String) : Option String :=
  match selectedDistrict with
  | some s => if s = "" then none else some (normalizeKey s)
  | none => none

/-- The derived series (App.jsx line 180):
districtKey ? tws[districtKey] : null. A falsy key (null or the empty
string) short-circuits to null. -/
def selectedDistrictDataOf {a : Type} (tws : TwsDataset a)
    (selectedDistrict : Option String) : Option (WaterSeries a) :=
  match districtKeyOf selectedDistrict with
  | some k => if k = "" then none else lookupTws tws k
  | none => none

/-- The CardTitle expression (App.jsx line 233):
selectedDistrict || "No District Selected". -/
def cardTitleOf (selectedDistrict : Option String) : String :=
  match selectedDistrict with
  | some s => if s = "" then "No District Selected" else s
  | none => "No District Selected"

/-- The dashboard branch of App (App.jsx lines 211-243): map pane from the
loaded geojson, title from the selection, chart from the derived series and
the raw selected name. -/
def dashboardView {a g : Type} (st : LoaderState a g)
    (selectedDistrict : Option String) : AppRender a g :=
  .dashboard (MapComponent st.data.geojson) (cardTitleOf selectedDistrict)
    (ChartComponent (selectedDistrictDataOf st.data.tws selectedDistrict) selectedDistrict)

/-- The App component's render (App.jsx lines 198-243): the loading screen
while loading, the error screen while error is truthy (a non-null,
non-empty message string), else the dashboard. -/
def App {a g : Type} (st : LoaderState a g) (selectedDistrict : Option String) :
    AppRender a g :=
  if st.loading then .loadingView
  else
    match st.error with
    | some m => if m = "" then dashboardView st selectedDistrict else .errorView m
    | none => dashboardView st selectedDistrict

/-- A fetch outcome that makes the loader fail: a rejected promise, a
non-2xx status, or a body that fails to parse. -/
def isFailure {b : Type} : FetchOutcome b → Prop
  | .netError _ => True
  | .response ok body => ok = false ∨ ∃ m, body = .error m

/-- Environment assumption on one fetch outcome: failure messages produced
by the platform (rejection reasons, JSON parse errors) are non-empty
strings, as every browser engine guarantees. -/
def failureMessagesNonempty {b : Type} : FetchOutcome b → Prop
  | .netError m => m ≠ ""
  | .response _ (.error m) => m ≠ ""
  | .response _ (.ok _) => True

/-- A code point in the ASCII letter range 65-122 is not ECMAScript
whitespace. -/
theorem isJsSpaceCode_eq_false (n : Nat) (h1 : 65 ≤ n) (h2 : n ≤ 122) :
    isJsSpaceCode n = false := by
  unfold isJsSpaceCode
  simp only [Bool.or_eq_false_iff, decide_eq_false_iff_not, Bool.and_eq_false_iff,
    decide_eq_true_eq, not_le]
  omega

/-- Unfolding lemma: lowerChar moves a code point in 65-90 up by 32 and
fixes every other character's code point. -/
theorem lowerChar_toNat (c : Char) :
    (lowerChar c).toNat = if 65 ≤ c.toNat ∧ c.toNat ≤ 90 then c.toNat + 32 else c.toNat := by
  unfold lowerChar
  split
  · rename_i h
    unfold Char.ofNat
    rw [dif_pos (Or.inl (by omega))]
    rfl
  · rfl

/-- lowerChar fixes characters outside the uppercase ASCII range. -/
theorem lowerChar_eq_self (c : Char) (h : ¬(65 ≤ c.toNat ∧ c.toNat ≤ 90)) :
    lowerChar c = c := by
  unfold lowerChar
  rw [if_neg h]

/-- Lowercasing does not change whether a character is whitespace. -/
theorem isJsSpace_lowerChar (c : Char) : isJsSpace (lowerChar c) = isJsSpace c := by
  unfold isJsSpace
  rw [lowerChar_toNat]
  split
  · rename_i h
    rw [isJsSpaceCode_eq_false _ (by omega) (by omega),
      isJsSpaceCode_eq_false _ (by omega) (by omega)]
  · rfl

/-- lowerChar is idempotent: a lowered character is outside 65-90. -/
theorem lowerChar_idem (c : Char) : lowerChar (lowerChar c) = lowerChar c := by
  by_cases h : 65 ≤ c.toNat ∧ c.toNat ≤ 90
  · apply lowerChar_eq_self
    rw [lowerChar_toNat, if_pos h]
    omega
  · rw [lowerChar_eq_self c h, lowerChar_eq_self c h]

/-- The head surviving a dropWhile does not satisfy the predicate. -/
theorem dropWhile_head_false {a : Type} (p : a → Bool) (l : List a) (c : a)
    (h : (l.dropWhile p).head? = some c) : p c = false := by
  induction l with
  | nil => simp [List.dropWhile] at h
  | cons x xs ih =>
    rw [List.dropWhile_cons] at h
    split at h
    · exact ih h
    · rename_i hx
      simp only [List.head?_cons, Option.some.injEq] at h
      subst h
      exact Bool.not_eq_true _ ▸ (Bool.eq_false_iff.mpr hx)

/-- dropWhile is the identity on a list whose head fails the predicate. -/
theorem dropWhile_eq_self_of_head {a : Type} (p : a → Bool) (l : List a)
    (h : ∀ c, l.head? = some c → p c = false) : l.dropWhile p = l := by
  cases l with
  | nil => rfl
  | cons x xs =>
    rw [List.dropWhile_cons, if_neg]
    simp [h x rfl]

/-- dropWhile is idempotent. -/
theorem dropWhile_idem {a : Type} (p : a → Bool) (l : List a) :
    (l.dropWhile p).dropWhile p = l.dropWhile p :=
  dropWhile_eq_self_of_head p _ (dropWhile_head_false p l)

/-- A non-empty dropWhile result keeps the last element of the list. -/
theorem getLast?_dropWhile {a : Type} (p : a → Bool) (l : List a)
    (h : l.dropWhile p ≠ []) : (l.dropWhile p).getLast? = l.getLast? := by
  induction l with
  | nil => simp [List.dropWhile] at h
  | cons x xs ih =>
    by_cases hx : p x = true
    · rw [List.dropWhile_cons, if_pos hx] at h ⊢
      have hxs : xs ≠ [] := by
        intro e
        subst e
        simp [List.dropWhile] at h
      rw [ih h]
      cases xs with
      | nil => exact absurd rfl hxs
      | cons y ys => rw [List.getLast?_cons_cons]
    · rw [List.dropWhile_cons, if_neg hx]

/-- The head of a trimmed list is not whitespace. -/
theorem jsTrim_head (l : List Char) (c : Char) (h : (jsTrim l).head? = some c) :
    isJsSpace c = false := by
  unfold jsTrim at h
  rw [List.head?_reverse] at h
  have hne : ((l.dropWhile isJsSpace).reverse.dropWhile isJsSpace) ≠ [] := by
    intro e
    rw [e] at h
    simp at h
  rw [getLast?_dropWhile _ _ hne, List.getLast?_reverse] at h
  exact dropWhile_head_false _ _ _ h

/-- A trimmed list has no leading whitespace to drop. -/
theorem jsTrim_dropWhile (l : List Char) :
    (jsTrim l).dropWhile isJsSpace = jsTrim l :=
  dropWhile_eq_self_of_head _ _ (jsTrim_head l)

/-- jsTrim is idempotent. -/
theorem jsTrim_idem (l : List Char) : jsTrim (jsTrim l) = jsTrim l := by
  conv_lhs => rw [jsTrim]
  rw [jsTrim_dropWhile]
  rw [show (jsTrim l).reverse = (l.dropWhile isJsSpace).reverse.dropWhile isJsSpace from by
    rw [jsTrim, List.reverse_reverse]]
  rw [dropWhile_idem]
  rw [jsTrim]

/-- Trimming commutes with lowercasing, because lowerChar preserves the
whitespace test. -/
theorem jsTrim_jsToLower (l : List Char) :
    jsTrim (jsToLower l) = jsToLower (jsTrim l) := by
  have hp : isJsSpace ∘ lowerChar = isJsSpace := by
    funext c
    exact isJsSpace_lowerChar c
  unfold jsTrim jsToLower
  rw [List.dropWhile_map, hp, ← List.map_reverse, List.dropWhile_map, hp, ← List.map_reverse]

/-- jsToLower is idempotent. -/
theorem jsToLower_idem (l : List Char) : jsToLower (jsToLower l) = jsToLower l := by
  unfold jsToLower
  rw [List.map_map]
  have hc : lowerChar ∘ lowerChar = lowerChar := by
    funext c
    exact lowerChar_idem c
  rw [hc]

/-- C7: the normalization function is idempotent: for every string s,
normalize (normalize s) = normalize s, where normalize is trim followed by
lowercase (App.jsx line 178). -/
theorem claim_C7_normalize_idempotent (s : String) :
    normalizeKey (normalizeKey s) = normalizeKey s := by
  unfold normalizeKey
  congr 1
  rw [show (⟨jsToLower (jsTrim s.data)⟩ : String).data = jsToLower (jsTrim s.data) from rfl]
  rw [jsTrim_jsToLower, jsTrim_idem, jsToLower_idem]

/-- C4: for every pair of 2xx, well-formed responses the loader reaches the
ready state with both datasets exactly as received: the tws mapping and the
boundary collection are published verbatim, loading cleared, no error. -/
theorem claim_C4_success_verbatim {a g : Type} (body : TwsDataset a) (geo : g) :
    runLoader (.response true (.ok body)) (.response true (.ok geo)) =
      ⟨⟨body, some geo⟩, false, none⟩ := rfl

/-- C9: in the no-selection state the dashboard's chart shows the
click-a-district instructional placeholder and the pane title shows
No District Selected. -/
theorem claim_C9_no_selection {a g : Type} (tws : TwsDataset a) (geo : Option g) :
    App ⟨⟨tws, geo⟩, false, none⟩ none =
      .dashboard (MapComponent geo) "No District Selected"
        (.placeholder "Click a district on the map to view its water status data.") := rfl

/-- C10: when the loader ends in the error state, the published data object
is unchanged from its initial value (tws an empty object, geojson null):
setData runs only after every fallible step has succeeded. -/
theorem claim_C10_atomic_error {a g : Type} (twsRes : FetchOutcome (TwsDataset a))
    (geojsonRes : FetchOutcome g) (m : String)
    (h : (runLoader twsRes geojsonRes).error = some m) :
    (runLoader twsRes geojsonRes).data = initialData := by
  cases twsRes with
  | netError mt => rfl
  | response tOk tBody =>
    cases geojsonRes with
    | netError mg => rfl
    | response gOk gBody =>
      cases tOk <;> cases gOk <;> cases gBody <;> cases tBody <;>
        first
        | rfl
        | simp [runLoader] at h

/-- Witness for C10 at a concrete failing load. -/
theorem claim_C10_atomic_error_witness :
    (runLoader (a := Nat) (.netError "Failed to fetch")
        (.response true (.ok (0 : Nat)))).data = initialData := by
  exact claim_C10_atomic_error (.netError "Failed to fetch")
    (.response true (.ok 0)) "Failed to fetch" rfl

/-- Helper: the App render of a non-loading state whose error message is
truthy is exactly the error screen. -/
theorem App_error_render {a g : Type} (d : WaterData a g) (m : String) (hm : m ≠ "")
    (sel : Option String) : App ⟨d, false, some m⟩ sel = .errorView m := by
  simp [App, hm]

/-- C3: for any pair of outcomes where at least one fetch fails, returns a
non-2xx status or has a body that fails to parse, the loader reaches the
error state carrying a message string and the dashboard renders only the
error view, which holds neither a map pane nor a chart (environment
assumption: platform failure messages are non-empty strings). -/
theorem claim_C3_failure_renders_error {a g : Type} (twsRes : FetchOutcome (TwsDataset a))
    (geojsonRes : FetchOutcome g) (sel : Option String)
    (hfail : isFailure twsRes ∨ isFailure geojsonRes)
    (ht : failureMessagesNonempty twsRes) (hg : failureMessagesNonempty geojsonRes) :
    ∃ m, m ≠ "" ∧ (runLoader twsRes geojsonRes).error = some m ∧
      App (runLoader twsRes geojsonRes) sel = .errorView m := by
  cases twsRes with
  | netError mt => exact ⟨mt, ht, rfl, App_error_render _ _ ht _⟩
  | response tOk tBody =>
    cases geojsonRes with
    | netError mg => exact ⟨mg, hg, rfl, App_error_render _ _ hg _⟩
    | response gOk gBody =>
      cases tOk with
      | false =>
        exact ⟨"Network response was not ok", by decide, rfl,
          App_error_render _ _ (by decide) _⟩
      | true =>
        cases gOk with
        | false =>
          exact ⟨"Network response was not ok", by decide, rfl,
            App_error_render _ _ (by decide) _⟩
        | true =>
          cases gBody with
          | error mg => exact ⟨mg, hg, rfl, App_error_render _ _ hg _⟩
          | ok gv =>
            cases tBody with
            | error mt => exact ⟨mt, ht, rfl, App_error_render _ _ ht _⟩
            | ok tv =>
              exfalso
              rcases hfail with hf | hf <;>
                rcases hf with h | ⟨m', e⟩ <;> simp_all

/-- Witness for C3 at a concrete failing pair: tws endpoint 500, boundaries
fine. -/
theorem claim_C3_failure_renders_error_witness :
    ∃ m, m ≠ "" ∧
      (runLoader (a := Nat) (.response false (.ok [])) (.response true (.ok (0 : Nat)))).error
        = some m ∧
      App (runLoader (a := Nat) (.response false (.ok [])) (.response true (.ok (0 : Nat)))) none
        = .errorView m := by
  exact claim_C3_failure_renders_error (.response false (.ok []))
    (.response true (.ok 0)) none (Or.inl (Or.inl rfl)) trivial trivial

/-- Helper: for a selection whose normalized key is non-empty, the derived
series is exactly the dictionary lookup at the normalized key. -/
theorem selectedDistrictDataOf_lookup {a : Type} (tws : TwsDataset a) (name : String)
    (h2 : normalizeKey name ≠ "") :
    selectedDistrictDataOf tws (some name) = lookupTws tws (normalizeKey name) := by
  have h1 : name ≠ "" := by
    intro e
    subst e
    exact h2 rfl
  simp [selectedDistrictDataOf, districtKeyOf, h1, h2]

/-- C1 counterexample: with the series stored under the key that is the
empty string and a whitespace-only display name, the dataset's key set
contains normalize of the name and lookupTws finds the series, yet the
selection yields null: line 180 treats the empty-string key as falsy. -/
theorem claim_C1_counterexample :
    lookupTws [("", [("2010", (1 : Nat))])] (normalizeKey " ") = some [("2010", 1)] ∧
    selectedDistrictDataOf [("", [("2010", (1 : Nat))])] (some " ") = none :=
  ⟨by decide, rfl⟩

/-- C1 amended: if the dataset's key set contains normalize of the display
name and that normalized key is non-empty, selecting a feature with that
display name (in any casing or whitespace variant) yields exactly the
series stored under the key. -/
theorem claim_C1_lookup_correct {a : Type} (tws : TwsDataset a) (name : String)
    (series : WaterSeries a) (hk : normalizeKey name ≠ "")
    (hfound : lookupTws tws (normalizeKey name) = some series) :
    selectedDistrictDataOf tws (some name) = some series := by
  rw [selectedDistrictDataOf_lookup tws name hk, hfound]

/-- Witness for C1 amended at a concrete casing and whitespace variant. -/
theorem claim_C1_lookup_correct_witness :
    selectedDistrictDataOf [("badgam", [("2010", (1 : Nat))])] (some " Badgam ") =
      some [("2010", 1)] :=
  claim_C1_lookup_correct [("badgam", [("2010", 1)])] " Badgam " [("2010", 1)]
    (by decide) (by decide)

/-- C2 counterexample: the loader publishes the tws payload verbatim, so a
backend key that is not lowercase reaches the published dataset unchanged
and is not a fixed point of normalize: nothing in the code normalizes keys
at build or receive time. -/
theorem claim_C2_counterexample :
    (runLoader (a := Nat) (g := Nat)
        (.response true (.ok [("Badgam", [("2010", 1)])]))
        (.response true (.ok 0))).data.tws.map Prod.fst = ["Badgam"] ∧
    normalizeKey "Badgam" ≠ "Badgam" :=
  ⟨rfl, by decide⟩

/-- C2 amended: keys are published verbatim, so every published key is a
fixed point of normalize exactly when the backend supplies normalized keys
(the stated backend contract); and at lookup time the selection's display
name goes through the same normalize function before the dictionary
access. -/
theorem claim_C2_normalize_both_ends {a g : Type} (body : TwsDataset a) (geo : g)
    (hnorm : ∀ k ∈ body.map Prod.fst, normalizeKey k = k) :
    (∀ k ∈ (runLoader (.response true (.ok body))
        (.response true (.ok geo))).data.tws.map Prod.fst, normalizeKey k = k) ∧
    (∀ (tws : TwsDataset a) (name : String), normalizeKey name ≠ "" →
      selectedDistrictDataOf tws (some name) = lookupTws tws (normalizeKey name)) := by
  refine ⟨?_, ?_⟩
  · intro k hk
    exact hnorm k hk
  · intro tws name h
    exact selectedDistrictDataOf_lookup tws name h

/-- Witness for C2 amended: a normalized backend key is published as a
fixed point of normalize. -/
theorem claim_C2_normalize_both_ends_witness : normalizeKey "badgam" = "badgam" :=
  (claim_C2_normalize_both_ends (g := Nat) [("badgam", [("2010", (1 : Nat))])] 0
    (by decide)).1 "badgam" (by decide)

/-- C5: a selection whose normalized name is absent from the dataset's key
set (including the empty dataset) renders the dashboard with the
informational placeholder naming the selected district - not a crash, an
error view, or an empty line chart. -/
theorem claim_C5_lookup_miss {a g : Type} (tws : TwsDataset a) (geo : Option g)
    (name : String) (hname : name ≠ "")
    (hmiss : lookupTws tws (normalizeKey name) = none) :
    App ⟨⟨tws, geo⟩, false, none⟩ (some name) =
      .dashboard (MapComponent geo) name
        (.placeholder ("No TWS data is available for " ++ name ++ ".")) := by
  have hdata : selectedDistrictDataOf tws (some name) = none := by
    by_cases hk : normalizeKey name = ""
    · simp [selectedDistrictDataOf, districtKeyOf, hname, hk]
    · rw [selectedDistrictDataOf_lookup tws name hk, hmiss]
  simp [App, dashboardView, cardTitleOf, hname, hdata, ChartComponent, noDataMessage]

/-- Witness for C5 on the spec's scenario: empty tws payload, any
boundaries, clicking Srinagar. -/
theorem claim_C5_lookup_miss_witness :
    App (a := Nat) ⟨⟨[], some (0 : Nat)⟩, false, none⟩ (some "Srinagar") =
      .dashboard (MapComponent (some 0)) "Srinagar"
        (.placeholder "No TWS data is available for Srinagar.") :=
  claim_C5_lookup_miss [] (some 0) "Srinagar" (by decide) rfl

/-- C6: a non-empty series renders as the line chart over the ordered
(year, value) points; the transformation keeps the mapping's entry order
and sends every entry to exactly one point, with no filtering. -/
theorem claim_C6_chart_points {a : Type} (d : WaterSeries a)
    (districtName : Option String) (h : d ≠ []) :
    ChartComponent (some d) districtName = .lineChart (chartDataOf d) ∧
    (chartDataOf d).length = d.length ∧
    (chartDataOf d).map (fun pt => (pt.year, pt.twsBCM)) = d := by
  refine ⟨?_, ?_, ?_⟩
  · have hlen : ¬(d.length = 0) := by simpa using h
    simp [ChartComponent, hlen]
  · simp [chartDataOf]
  · simp only [chartDataOf, List.map_map]
    have : ((fun pt : ChartPoint a => (pt.year, pt.twsBCM)) ∘
        (fun e : String × a => ⟨e.1, e.2⟩)) = id := by
      funext e
      rfl
    rw [this, List.map_id]

/-- Witness for C6 on the spec's two-point Badgam scenario. -/
theorem claim_C6_chart_points_witness :
    ChartComponent (some [("2010", (1 : Nat)), ("2011", 2)]) (some "Badgam") =
      .lineChart (chartDataOf [("2010", 1), ("2011", 2)]) ∧
    (chartDataOf [("2010", (1 : Nat)), ("2011", 2)]).length =
      [("2010", (1 : Nat)), ("2011", 2)].length ∧
    (chartDataOf [("2010", (1 : Nat)), ("2011", 2)]).map (fun pt => (pt.year, pt.twsBCM)) =
      [("2010", 1), ("2011", 2)] :=
  claim_C6_chart_points [("2010", 1), ("2011", 2)] (some "Badgam") (by decide)

/-- C8 counterexample: a feature whose DISTRICT property is present but is
the empty string makes the click handler pass the literal Unknown, not the
property's value: line 71 falls back on any falsy property, not only on an
absent one. -/
theorem claim_C8_counterexample :
    (Feature.mk (some "")).DISTRICT = some "" ∧
    (onEachFeature (Feature.mk (some ""))).clickArg = "Unknown" ∧
    ("Unknown" : String) ≠ "" :=
  ⟨rfl, rfl, by decide⟩

/-- C8 amended: clicking a feature invokes the callback with the DISTRICT
property whenever it is present and non-empty; when the property is absent
or empty the callback receives the literal string Unknown. -/
theorem claim_C8_click_name (f : Feature) :
    (∀ s, f.DISTRICT = some s → s ≠ "" → (onEachFeature f).clickArg = s) ∧
    ((f.DISTRICT = none ∨ f.DISTRICT = some "") →
      (onEachFeature f).clickArg = "Unknown") := by
  obtain ⟨d⟩ := f
  cases d with
  | none =>
    refine ⟨?_, fun _ => rfl⟩
    intro s hs
    simp at hs
  | some v =>
    constructor
    · intro s hs hne
      simp only [Option.some.injEq] at hs
      subst hs
      simp [onEachFeature, hne]
    · intro hcase
      rcases hcase with hn | he
      · simp at hn
      · simp only [Option.some.injEq] at he
        subst he
        rfl

/-- Witness for C8 amended at a present non-empty property and at an
absent property. -/
theorem claim_C8_click_name_witness :
    (onEachFeature ⟨some "Badgam"⟩).clickArg = "Badgam" ∧
    (onEachFeature ⟨none⟩).clickArg = "Unknown" :=
  ⟨(claim_C8_click_name ⟨some "Badgam"⟩).1 "Badgam" rfl (by decide),
    (claim_C8_click_name ⟨none⟩).2 (Or.inl rfl)⟩
